import Mathlib

/-!
Shallow embedding of `src/utils/address_resolver.py` (class `AddressResolver`)
from the story-sdk-mcp repository.

The resolver depends on three external collaborators, modelled here as
function-valued structures:

* `Web3Model` — the format validator of the chain library (`web3.is_address`,
  `web3.to_checksum_address`).  `to_checksum_address` raises on an invalid
  input, modelled as `Except Unit String`.
* `ENSModel` — the primary naming backend (`ens.address`, `ens.name`).  A
  Python call may return an `Optional[str]` or raise; we model the result as
  `Except Unit (Option String)` where `Except.error` is a raised exception.
* `Requests` — the secondary naming backend reached over HTTP
  (`GET getAddress?domain=...` and `GET getName?chainid=...&address=...`).
  `requests.get` may raise (network error, timeout), the response carries a
  status code, and `.json()` may raise on a malformed body.

Python truthiness on `Optional[str]` values (`if x:`) treats both `None` and
the empty string as falsy; `truthy` reproduces this.
-/

/-- Python `s.startswith(p)`, computed structurally on the character list. -/
def pyStartsWith (s p : String) : Bool := p.data.isPrefixOf s.data

/-- Python `s.endswith(p)`, computed structurally on the character list. -/
def pyEndsWith (s p : String) : Bool := p.data.isSuffixOf s.data

/-- Python `len(s)` for a string: the number of characters. -/
def pyLen (s : String) : Nat := s.data.length

/-- Python `s.lower()` (ASCII case folding, which covers the suffixes and
hex marker the resolver compares against). -/
def pyLower (s : String) : String := ⟨s.data.map Char.toLower⟩

/-- Python truthiness of an `Optional[str]` value: `None` and `""` are falsy. -/
def truthy : Option String → Bool
  | none => false
  | some s => !s.data.isEmpty

/-- JSON body of a Space ID API response, as accessed with `data.get(key)`:
a missing key yields `None`, modelled by `none`. -/
structure SpaceIdJson where
  code : Option Int
  address : Option String
  name : Option String

/-- An HTTP response: status code, and the result of calling `.json()` on it
(`Except.error` models a raised exception on a malformed body). -/
structure HttpResponse where
  status_code : Nat
  json : Except Unit SpaceIdJson

/-- The format validator supplied by the chain library (`web3`).
`to_checksum_address` raises (`Except.error`) on invalid input. -/
structure Web3Model where
  is_address : String → Bool
  to_checksum_address : String → Except Unit String

/-- The primary naming backend (`ens`): forward lookup `address(domain)` and
reverse lookup `name(addr)`; either may return a value, return `None`,
or raise. -/
structure ENSModel where
  address : String → Except Unit (Option String)
  name : String → Except Unit (Option String)

/-- The HTTP layer used to reach the secondary naming backend.
`getAddress domain` models `requests.get(f"{url}/getAddress?domain={domain}")`;
`getName cid addr` models
`requests.get(f"{url}/getName?chainid={cid}&address={addr}")`.
`Except.error` is a raised exception (network error, timeout). -/
structure Requests where
  getAddress : String → Except Unit HttpResponse
  getName : Int → String → Except Unit HttpResponse

/-- The `AddressResolver` instance state set up in `__init__`:
the `web3` validator, the configured `chain_id`, the `ens` instance and the
HTTP client reaching the Space ID API. -/
structure AddressResolver where
  web3 : Web3Model
  chain_id : Int
  ens : ENSModel
  http : Requests

/-- The outcome of `resolve_address`: either a resolved address, the explicit
`ValueError("Could not resolve address or domain: ...")`, or an exception
propagated from an uncaught `web3.to_checksum_address` call. -/
inductive ResolveError where
  | valueError (msg : String)
  | checksumError
deriving DecidableEq, Repr

namespace AddressResolver

/-- `_is_ethereum_address`: `value.startswith("0x") and len(value) == 42 and
self.web3.is_address(value)`. -/
def is_ethereum_address (r : AddressResolver) (value : String) : Bool :=
  pyStartsWith value "0x" && pyLen value == 42 && r.web3.is_address value

/-- `_resolve_ens_domain`: calls `self.ens.address(domain)` inside
`try/except`, returning `address if address else None`. -/
def resolve_ens_domain (r : AddressResolver) (domain : String) : Option String :=
  match r.ens.address domain with
  | .error _ => none
  | .ok a => if truthy a then a else none

/-- `_get_ens_name`: reverse-resolves `address`, then verifies that the
forward resolution of the returned name equals `address`; any exception
yields `None`. -/
def get_ens_name (r : AddressResolver) (address : String) : Option String :=
  match r.ens.name address with
  | .error _ => none
  | .ok n =>
      if truthy n then
        match n with
        | none => none
        | some nm =>
            match r.ens.address nm with
            | .error _ => none
            | .ok fwd => if fwd = some address then some nm else none
      else none

/-- `_resolve_domain_to_address`: `GET getAddress?domain=...`; any exception,
non-200 status, or `code != 0` yields `None`; otherwise returns
`data.get("address")`. -/
def resolve_domain_to_address (r : AddressResolver) (domain : String) :
    Option String :=
  match r.http.getAddress domain with
  | .error _ => none
  | .ok resp =>
      if resp.status_code ≠ 200 then none
      else
        match resp.json with
        | .error _ => none
        | .ok data => if data.code ≠ some 0 then none else data.address

/-- The call `self.web3.to_checksum_address s` made directly inside
`resolve_address` (outside any `try`): a raised exception propagates. -/
def checksum_step (r : AddressResolver) (s : String) :
    Except ResolveError String :=
  match r.web3.to_checksum_address s with
  | .ok a => .ok a
  | .error _ => .error .checksumError

/-- The second handler of `resolve_address`: the ENS forward lookup is made
only when the identifier, lower-cased, ends with `".eth"`. -/
def ens_step (r : AddressResolver) (s : String) : Option String :=
  if pyEndsWith (pyLower s) ".eth" then r.resolve_ens_domain s else none

/-- The part of `resolve_address` after the literal-address check: try ENS
(when the suffix matches), then Space ID, then raise `ValueError`. -/
def domain_resolution (r : AddressResolver) (s : String) :
    Except ResolveError String :=
  let ens_address := r.ens_step s
  if truthy ens_address then r.checksum_step (ens_address.getD "")
  else
    let space_id_address := r.resolve_domain_to_address s
    if truthy space_id_address then r.checksum_step (space_id_address.getD "")
    else .error (.valueError ("Could not resolve address or domain: " ++ s))

/-- `resolve_address`: chain of responsibility — literal address, then ENS
domain, then Space ID domain, else `ValueError`. -/
def resolve_address (r : AddressResolver) (address_or_domain : String) :
    Except ResolveError String :=
  if r.is_ethereum_address address_or_domain then
    r.checksum_step address_or_domain
  else r.domain_resolution address_or_domain

/-- The Space ID reverse-lookup block of `get_domain_for_address`:
`GET getName?chainid=...&address=...`; any exception, non-200 status or
`code != 0` yields `None`, else `data.get("name")`. -/
def space_id_name_lookup (r : AddressResolver) (address : String) :
    Option String :=
  match r.http.getName r.chain_id address with
  | .error _ => none
  | .ok resp =>
      if resp.status_code ≠ 200 then none
      else
        match resp.json with
        | .error _ => none
        | .ok data => if data.code ≠ some 0 then none else data.name

/-- `get_domain_for_address`: checksum the input (an exception is caught by
the surrounding `try`, yielding `None`), try the verified ENS reverse
lookup, then the Space ID reverse lookup. -/
def get_domain_for_address (r : AddressResolver) (address : String) :
    Option String :=
  match r.web3.to_checksum_address address with
  | .error _ => none
  | .ok addr =>
      let ens_name := r.get_ens_name addr
      if truthy ens_name then ens_name
      else r.space_id_name_lookup addr

end AddressResolver

/-! ### Concrete collaborator instances

Small concrete validator/backend behaviors used to evaluate the resolver on
closed inputs: an accept-everything validator, a reject-everything validator,
quiet backends (clean not-found replies), faulting backends (every call
raises), and a few scripted behaviors. -/

/-- A validator that accepts every string and canonicalizes it to itself. -/
def w_ok : Web3Model := ⟨fun _ => true, fun s => .ok s⟩

/-- A validator that rejects every string; canonicalization always raises. -/
def w_reject : Web3Model := ⟨fun _ => false, fun _ => .error ()⟩

/-- A validator accepting exactly the strings with the `"0x"` marker. -/
def w_hex : Web3Model :=
  ⟨fun s => pyStartsWith s "0x",
   fun s => if pyStartsWith s "0x" then .ok s else .error ()⟩

/-- A primary backend whose lookups cleanly return `None`. -/
def ens_quiet : ENSModel := ⟨fun _ => .ok none, fun _ => .ok none⟩

/-- A primary backend whose lookups always raise. -/
def ens_err : ENSModel := ⟨fun _ => .error (), fun _ => .error ()⟩

/-- A primary backend with a forward record for `"alice.eth"`. -/
def ens_alice : ENSModel :=
  ⟨fun d => if d = "alice.eth"
              then .ok (some "0xaaaaaaaaaaaaaaaaaaaaaaaaaaaaaaaaaaaaaaaa")
              else .ok none,
   fun _ => .ok none⟩

/-- A primary backend whose reverse lookup reports `"evil.eth"` for every
address while the forward record of `"evil.eth"` points elsewhere. -/
def ens_spoof : ENSModel :=
  ⟨fun d => if d = "evil.eth"
              then .ok (some "0xbbbbbbbbbbbbbbbbbbbbbbbbbbbbbbbbbbbbbbbb")
              else .ok none,
   fun _ => .ok (some "evil.eth")⟩

/-- A secondary backend returning a clean 404 on every call. -/
def http_quiet : Requests :=
  ⟨fun _ => .ok ⟨404, .error ()⟩, fun _ _ => .ok ⟨404, .error ()⟩⟩

/-- A secondary backend whose calls always raise (network fault). -/
def http_err : Requests := ⟨fun _ => .error (), fun _ _ => .error ()⟩

/-- A secondary backend whose forward endpoint answers 200/`code 0` with the
address field set to a string that is not a valid address. -/
def http_badaddr : Requests :=
  ⟨fun _ => .ok ⟨200, .ok ⟨some 0, some "zzz", none⟩⟩, fun _ _ => .error ()⟩

/-- A secondary backend with a forward record for `"bob.ip"`. -/
def http_bob : Requests :=
  ⟨fun d => if d = "bob.ip"
              then .ok ⟨200, .ok ⟨some 0,
                some "0xcccccccccccccccccccccccccccccccccccccccc", none⟩⟩
              else .ok ⟨404, .error ()⟩,
   fun _ _ => .ok ⟨404, .error ()⟩⟩

/-- A secondary backend whose reverse endpoint reports `"spoof.ip"` for every
address, while its own forward record for `"spoof.ip"` is a different
address. -/
def http_spoof : Requests :=
  ⟨fun _ => .ok ⟨200, .ok ⟨some 0,
      some "0xbbbbbbbbbbbbbbbbbbbbbbbbbbbbbbbbbbbbbbbb", none⟩⟩,
   fun _ _ => .ok ⟨200, .ok ⟨some 0, none, some "spoof.ip"⟩⟩⟩

/-! ### Helper lemmas characterizing the branches of the resolver -/

lemma truthy_some_iff (s : String) : truthy (some s) = true ↔ s ≠ "" := by
  simp only [truthy, Bool.not_eq_true']
  constructor
  · intro h he
    subst he
    simp at h
  · intro h
    cases s with
    | mk l =>
      cases l with
      | nil => exact absurd rfl h
      | cons c cs => simp [List.isEmpty]

lemma truthy_iff (o : Option String) :
    truthy o = true ↔ ∃ s, o = some s ∧ s ≠ "" := by
  cases o with
  | none => simp [truthy]
  | some s => simp [truthy_some_iff s]

namespace AddressResolver

lemma resolve_ens_domain_some_iff (r : AddressResolver) (d a : String) :
    r.resolve_ens_domain d = some a ↔
      r.ens.address d = .ok (some a) ∧ a ≠ "" := by
  unfold resolve_ens_domain
  cases h : r.ens.address d with
  | error u => simp
  | ok o =>
    cases o with
    | none => simp [truthy]
    | some s =>
      show (if truthy (some s) = true then some s else none) = some a ↔ _
      by_cases hs : s = ""
      · subst hs
        rw [if_neg (by simp [truthy])]
        simp only [Except.ok.injEq, Option.some.injEq]
        constructor
        · intro hc
          cases hc
        · rintro ⟨he, hne⟩
          exact absurd he.symm hne
      · rw [if_pos ((truthy_some_iff s).mpr hs)]
        simp only [Except.ok.injEq, Option.some.injEq]
        constructor
        · intro h2
          subst h2
          exact ⟨rfl, hs⟩
        · exact fun hp => hp.1

lemma resolve_domain_to_address_some_iff (r : AddressResolver) (d a : String) :
    r.resolve_domain_to_address d = some a ↔
      ∃ resp data, r.http.getAddress d = .ok resp ∧ resp.status_code = 200 ∧
        resp.json = .ok data ∧ data.code = some 0 ∧ data.address = some a := by
  unfold resolve_domain_to_address
  cases hg : r.http.getAddress d with
  | error u => simp
  | ok resp =>
    cases resp with
    | mk st js =>
      by_cases hst : st = 200
      · subst hst
        simp only [ne_eq, not_true_eq_false, if_false, reduceIte]
        cases js with
        | error u => simp
        | ok data =>
          by_cases hc : data.code = some 0
          · simp [hc]
          · simp [hc]
      · simp [hst]

lemma ens_step_some_iff (r : AddressResolver) (s a : String) :
    r.ens_step s = some a ↔
      pyEndsWith (pyLower s) ".eth" = true ∧
        r.ens.address s = .ok (some a) ∧ a ≠ "" := by
  unfold ens_step
  by_cases h : pyEndsWith (pyLower s) ".eth"
  · simp [h, resolve_ens_domain_some_iff]
  · simp [h]

lemma checksum_step_ok_iff (r : AddressResolver) (s a : String) :
    r.checksum_step s = .ok a ↔ r.web3.to_checksum_address s = .ok a := by
  unfold checksum_step
  cases h : r.web3.to_checksum_address s with
  | error u => simp
  | ok b => simp

lemma resolve_address_of_literal (r : AddressResolver) (s : String)
    (h : r.is_ethereum_address s = true) :
    r.resolve_address s = r.checksum_step s := by
  unfold resolve_address
  simp [h]

lemma resolve_address_of_not_literal (r : AddressResolver) (s : String)
    (h : r.is_ethereum_address s = false) :
    r.resolve_address s = r.domain_resolution s := by
  unfold resolve_address
  simp [h]

lemma domain_resolution_of_ens (r : AddressResolver) (s a : String)
    (h : r.ens_step s = some a) (ha : a ≠ "") :
    r.domain_resolution s = r.checksum_step a := by
  unfold domain_resolution
  rw [h]
  simp [truthy_some_iff a, ha]

lemma domain_resolution_of_no_ens (r : AddressResolver) (s : String)
    (h : truthy (r.ens_step s) = false) :
    r.domain_resolution s =
      (if truthy (r.resolve_domain_to_address s)
        then r.checksum_step ((r.resolve_domain_to_address s).getD "")
        else .error (.valueError ("Could not resolve address or domain: " ++ s))) := by
  unfold domain_resolution
  simp [h]

end AddressResolver

/-! ### The claims -/

/-- Claim C1: for every input string that is a valid literal address (starts
with the hex marker, is exactly 42 characters, and passes the format
validator), `resolve_address` returns its checksum-canonicalized form, and
the result is the same for every possible behavior of the two naming
backends. -/
theorem c1_literal_resolves_backend_independently
    (w : Web3Model) (cid cid2 : Int) (e e2 : ENSModel) (h h2 : Requests)
    (s : String)
    (hlit : (AddressResolver.mk w cid e h).is_ethereum_address s = true)
    (hw : ∀ t, w.is_address t = true → ∃ a, w.to_checksum_address t = .ok a) :
    (∃ a, w.to_checksum_address s = .ok a ∧
        (AddressResolver.mk w cid e h).resolve_address s = .ok a) ∧
      (AddressResolver.mk w cid e h).resolve_address s =
        (AddressResolver.mk w cid2 e2 h2).resolve_address s := by
  have hval : w.is_address s = true := by
    have h3 := hlit
    unfold AddressResolver.is_ethereum_address at h3
    simp only [Bool.and_eq_true] at h3
    exact h3.2
  obtain ⟨a, ha⟩ := hw s hval
  have hlit2 : (AddressResolver.mk w cid2 e2 h2).is_ethereum_address s = true :=
    hlit
  rw [AddressResolver.resolve_address_of_literal _ _ hlit,
    AddressResolver.resolve_address_of_literal _ _ hlit2]
  exact ⟨⟨a, ha,
      ((AddressResolver.mk w cid e h).checksum_step_ok_iff s a).mpr ha⟩, rfl⟩

/-- Witness for C1 at a concrete literal address with concrete backends. -/
theorem c1_witness :
    (AddressResolver.mk w_ok 1 ens_err http_err).resolve_address
        "0x1111111111111111111111111111111111111111" =
      (AddressResolver.mk w_ok 2 ens_quiet http_quiet).resolve_address
        "0x1111111111111111111111111111111111111111" :=
  (c1_literal_resolves_backend_independently w_ok 1 2 ens_err ens_quiet
    http_err http_quiet "0x1111111111111111111111111111111111111111"
    (by decide) (fun t _ => ⟨t, rfl⟩)).2

/-- Claim C2 counterexample: a backend fault CAN be propagated to the caller
as its own error.  With a secondary backend answering 200/`code 0` but an
address field that fails the format validator, `resolve_address` raises the
checksum error of `to_checksum_address`, not the final resolution failure:
the claim that the only error resolve can raise is the resolution failure is
false on the code. -/
theorem c2_counterexample :
    (AddressResolver.mk w_reject 1514 ens_err http_badaddr).resolve_address
        "foo.ip" = .error .checksumError ∧
      ResolveError.checksumError ≠
        .valueError ("Could not resolve address or domain: " ++ "foo.ip") :=
  ⟨rfl, by decide⟩

/-- Claim C2 as amended: backend faults that manifest as raised exceptions,
non-200 statuses, malformed JSON bodies, non-zero codes, or missing/empty
fields are all treated as not-found and the chain continues; provided every
address string a backend actually returns is accepted by the format
validator (and the validator canonicalizes what it accepts), the only error
`resolve_address` can raise is the final resolution failure. -/
theorem c2_amended_backend_faults_swallowed
    (r : AddressResolver) (s : String)
    (hw : ∀ t, r.web3.is_address t = true →
        ∃ a, r.web3.to_checksum_address t = .ok a)
    (hens : ∀ a, r.resolve_ens_domain s = some a →
        ∃ ca, r.web3.to_checksum_address a = .ok ca)
    (hsid : ∀ a, r.resolve_domain_to_address s = some a → a ≠ "" →
        ∃ ca, r.web3.to_checksum_address a = .ok ca) :
    (∃ ca, r.resolve_address s = .ok ca) ∨
      r.resolve_address s =
        .error (.valueError ("Could not resolve address or domain: " ++ s)) := by
  by_cases hlit : r.is_ethereum_address s = true
  · left
    have hval : r.web3.is_address s = true := by
      unfold AddressResolver.is_ethereum_address at hlit
      simp only [Bool.and_eq_true] at hlit
      exact hlit.2
    obtain ⟨a, ha⟩ := hw s hval
    refine ⟨a, ?_⟩
    rw [AddressResolver.resolve_address_of_literal _ _ hlit]
    exact (r.checksum_step_ok_iff s a).mpr ha
  · have hlit2 : r.is_ethereum_address s = false := by
      revert hlit
      cases r.is_ethereum_address s <;> simp
    rw [AddressResolver.resolve_address_of_not_literal _ _ hlit2]
    by_cases hens_t : truthy (r.ens_step s) = true
    · obtain ⟨a, hstep, hne⟩ := (truthy_iff _).mp hens_t
      obtain ⟨hsuf, haddr, -⟩ := (r.ens_step_some_iff s a).mp hstep
      obtain ⟨ca, hca⟩ :=
        hens a ((r.resolve_ens_domain_some_iff s a).mpr ⟨haddr, hne⟩)
      left
      refine ⟨ca, ?_⟩
      rw [AddressResolver.domain_resolution_of_ens _ _ _ hstep hne]
      exact (r.checksum_step_ok_iff a ca).mpr hca
    · have hens_f : truthy (r.ens_step s) = false := by
        revert hens_t
        cases truthy (r.ens_step s) <;> simp
      rw [AddressResolver.domain_resolution_of_no_ens _ _ hens_f]
      by_cases hsid_t : truthy (r.resolve_domain_to_address s) = true
      · obtain ⟨a, hsome, hne⟩ := (truthy_iff _).mp hsid_t
        obtain ⟨ca, hca⟩ := hsid a hsome hne
        left
        refine ⟨ca, ?_⟩
        rw [if_pos hsid_t, hsome]
        exact (r.checksum_step_ok_iff a ca).mpr hca
      · right
        rw [if_neg hsid_t]

/-- Witness for the amended C2 at a concrete resolver whose backends all
fault. -/
theorem c2_amended_witness :
    (∃ ca, (AddressResolver.mk w_reject 1514 ens_err http_err).resolve_address
        "foo.ip" = .ok ca) ∨
      (AddressResolver.mk w_reject 1514 ens_err http_err).resolve_address
          "foo.ip" =
        .error (.valueError ("Could not resolve address or domain: " ++ "foo.ip")) :=
  c2_amended_backend_faults_swallowed
    (AddressResolver.mk w_reject 1514 ens_err http_err) "foo.ip"
    (fun t ht => by cases ht)
    (fun a ha => by cases ha)
    (fun a ha _ => by cases ha)

/-- Claim C3: if the primary backend's reverse lookup on the canonicalized
address returns a name whose forward lookup does not equal the canonicalized
address, the verified-primary step rejects it and `get_domain_for_address`
falls through to the secondary backend (or returns no-domain-found). -/
theorem c3_primary_reverse_antispoof
    (r : AddressResolver) (addr caddr nm : String)
    (hck : r.web3.to_checksum_address addr = .ok caddr)
    (hrev : r.ens.name caddr = .ok (some nm))
    (hfwd : r.ens.address nm ≠ .ok (some caddr)) :
    r.get_ens_name caddr = none ∧
      r.get_domain_for_address addr = r.space_id_name_lookup caddr := by
  have hname : r.get_ens_name caddr = none := by
    unfold AddressResolver.get_ens_name
    rw [hrev]
    cases hfa : r.ens.address nm with
    | error u => simp [hfa]
    | ok fwd =>
      have hne : fwd ≠ some caddr := fun h2 => hfwd (hfa.trans (by rw [h2]))
      simp [hfa, hne]
  refine ⟨hname, ?_⟩
  unfold AddressResolver.get_domain_for_address
  rw [hck]
  simp [hname, truthy]

/-- Witness for C3: a primary backend that reverse-reports a name whose
forward record points to a different address. -/
theorem c3_witness :
    (AddressResolver.mk w_ok 1514 ens_spoof http_quiet).get_domain_for_address
        "0xdddddddddddddddddddddddddddddddddddddddd" =
      (AddressResolver.mk w_ok 1514 ens_spoof http_quiet).space_id_name_lookup
        "0xdddddddddddddddddddddddddddddddddddddddd" :=
  (c3_primary_reverse_antispoof
    (AddressResolver.mk w_ok 1514 ens_spoof http_quiet)
    "0xdddddddddddddddddddddddddddddddddddddddd"
    "0xdddddddddddddddddddddddddddddddddddddddd"
    "evil.eth" rfl rfl
    (fun hq => absurd (Option.some.inj (Except.ok.inj hq)) (by decide))).2

/-- Claim C4: a string with the literal-address prefix and exact length that
fails the format validator is not treated as a literal; `resolve_address`
proceeds to the domain-resolution steps. -/
theorem c4_invalid_literal_falls_through
    (r : AddressResolver) (s : String)
    (hpre : pyStartsWith s "0x" = true) (hlen : pyLen s = 42)
    (hval : r.web3.is_address s = false) :
    r.is_ethereum_address s = false ∧
      r.resolve_address s = r.domain_resolution s := by
  have hlit : r.is_ethereum_address s = false := by
    unfold AddressResolver.is_ethereum_address
    simp [hval]
  exact ⟨hlit, AddressResolver.resolve_address_of_not_literal _ _ hlit⟩

/-- Witness for C4 at a 42-character `"0x"`-string rejected by the
validator. -/
theorem c4_witness :
    (AddressResolver.mk w_reject 1 ens_quiet http_quiet).resolve_address
        "0x1111111111111111111111111111111111111111" =
      (AddressResolver.mk w_reject 1 ens_quiet http_quiet).domain_resolution
        "0x1111111111111111111111111111111111111111" :=
  (c4_invalid_literal_falls_through
    (AddressResolver.mk w_reject 1 ens_quiet http_quiet)
    "0x1111111111111111111111111111111111111111"
    (by decide) (by decide) rfl).2

/-- Claim C5: a non-literal identifier ending (case-insensitively) in
`".eth"` whose primary forward lookup returns a non-empty address resolves
to that address canonicalized, independently of the secondary backend. -/
theorem c5_eth_domain_skips_secondary
    (w : Web3Model) (cid : Int) (e : ENSModel) (h h2 : Requests)
    (s a ca : String)
    (hlit : (AddressResolver.mk w cid e h).is_ethereum_address s = false)
    (hsuf : pyEndsWith (pyLower s) ".eth" = true)
    (ha : e.address s = .ok (some a))
    (hne : a ≠ "")
    (hck : w.to_checksum_address a = .ok ca) :
    (AddressResolver.mk w cid e h).resolve_address s = .ok ca ∧
      (AddressResolver.mk w cid e h).resolve_address s =
        (AddressResolver.mk w cid e h2).resolve_address s := by
  have hstep : (AddressResolver.mk w cid e h).ens_step s = some a :=
    ((AddressResolver.mk w cid e h).ens_step_some_iff s a).mpr ⟨hsuf, ha, hne⟩
  have h1 : (AddressResolver.mk w cid e h).resolve_address s = .ok ca := by
    rw [AddressResolver.resolve_address_of_not_literal _ _ hlit,
      AddressResolver.domain_resolution_of_ens _ _ _ hstep hne]
    exact ((AddressResolver.mk w cid e h).checksum_step_ok_iff a ca).mpr hck
  have hlit2 : (AddressResolver.mk w cid e h2).is_ethereum_address s = false :=
    hlit
  have hstep2 : (AddressResolver.mk w cid e h2).ens_step s = some a :=
    ((AddressResolver.mk w cid e h2).ens_step_some_iff s a).mpr ⟨hsuf, ha, hne⟩
  have h2ok : (AddressResolver.mk w cid e h2).resolve_address s = .ok ca := by
    rw [AddressResolver.resolve_address_of_not_literal _ _ hlit2,
      AddressResolver.domain_resolution_of_ens _ _ _ hstep2 hne]
    exact ((AddressResolver.mk w cid e h2).checksum_step_ok_iff a ca).mpr hck
  exact ⟨h1, h1.trans h2ok.symm⟩

/-- Witness for C5: `"alice.eth"` with a registered primary record resolves
identically whether the secondary backend faults or answers quietly. -/
theorem c5_witness :
    (AddressResolver.mk w_ok 1514 ens_alice http_err).resolve_address
        "alice.eth" = .ok "0xaaaaaaaaaaaaaaaaaaaaaaaaaaaaaaaaaaaaaaaa" ∧
      (AddressResolver.mk w_ok 1514 ens_alice http_err).resolve_address
          "alice.eth" =
        (AddressResolver.mk w_ok 1514 ens_alice http_quiet).resolve_address
          "alice.eth" :=
  c5_eth_domain_skips_secondary w_ok 1514 ens_alice http_err http_quiet
    "alice.eth" "0xaaaaaaaaaaaaaaaaaaaaaaaaaaaaaaaaaaaaaaaa"
    "0xaaaaaaaaaaaaaaaaaaaaaaaaaaaaaaaaaaaaaaaa"
    (by decide) (by decide) rfl (by decide) rfl

/-- Claim C6: when the literal check fails and the primary-suffix step did
not produce an address, `resolve_address` is decided by the secondary
backend's forward lookup on the raw identifier: it succeeds exactly when the
reply is a 200 status with success code 0 and a non-empty address field, and
then returns that address canonicalized. -/
theorem c6_secondary_fallback_characterization
    (r : AddressResolver) (s : String)
    (hlit : r.is_ethereum_address s = false)
    (hens : truthy (r.ens_step s) = false)
    (hck : ∀ a, r.resolve_domain_to_address s = some a → a ≠ "" →
        ∃ ca, r.web3.to_checksum_address a = .ok ca) :
    ((∃ ca, r.resolve_address s = .ok ca) ↔
      ∃ resp data a, r.http.getAddress s = .ok resp ∧
        resp.status_code = 200 ∧ resp.json = .ok data ∧
        data.code = some 0 ∧ data.address = some a ∧ a ≠ "") ∧
    (∀ a ca, r.resolve_domain_to_address s = some a → a ≠ "" →
      r.web3.to_checksum_address a = .ok ca → r.resolve_address s = .ok ca) := by
  have hres : r.resolve_address s =
      if truthy (r.resolve_domain_to_address s) = true
        then r.checksum_step ((r.resolve_domain_to_address s).getD "")
        else
          .error (.valueError ("Could not resolve address or domain: " ++ s)) := by
    rw [AddressResolver.resolve_address_of_not_literal _ _ hlit,
      AddressResolver.domain_resolution_of_no_ens _ _ hens]
  constructor
  · constructor
    · rintro ⟨ca, hca⟩
      rw [hres] at hca
      by_cases ht : truthy (r.resolve_domain_to_address s) = true
      · obtain ⟨a, hsome, hne⟩ := (truthy_iff _).mp ht
        obtain ⟨resp, data, g1, g2, g3, g4, g5⟩ :=
          (r.resolve_domain_to_address_some_iff s a).mp hsome
        exact ⟨resp, data, a, g1, g2, g3, g4, g5, hne⟩
      · rw [if_neg ht] at hca
        cases hca
    · rintro ⟨resp, data, a, g1, g2, g3, g4, g5, hne⟩
      have hsome : r.resolve_domain_to_address s = some a :=
        (r.resolve_domain_to_address_some_iff s a).mpr
          ⟨resp, data, g1, g2, g3, g4, g5⟩
      obtain ⟨ca, hca⟩ := hck a hsome hne
      refine ⟨ca, ?_⟩
      rw [hres, if_pos ((truthy_iff _).mpr ⟨a, hsome, hne⟩), hsome]
      exact (r.checksum_step_ok_iff a ca).mpr hca
  · intro a ca hsome hne hcka
    rw [hres, if_pos ((truthy_iff _).mpr ⟨a, hsome, hne⟩), hsome]
    exact (r.checksum_step_ok_iff a ca).mpr hcka

/-- Witness for C6: `"bob.ip"` resolved through the secondary backend's
forward record. -/
theorem c6_witness :
    (AddressResolver.mk w_ok 1514 ens_quiet http_bob).resolve_address
        "bob.ip" = .ok "0xcccccccccccccccccccccccccccccccccccccccc" :=
  (c6_secondary_fallback_characterization
    (AddressResolver.mk w_ok 1514 ens_quiet http_bob) "bob.ip"
    (by decide) rfl (fun a _ _ => ⟨a, rfl⟩)).2
    "0xcccccccccccccccccccccccccccccccccccccccc"
    "0xcccccccccccccccccccccccccccccccccccccccc"
    rfl (by decide) rfl

/-- Claim C7: when neither the literal check nor the primary backend nor the
secondary backend produces an address, `resolve_address` raises the
resolution-failure `ValueError` whose message contains the original input
identifier verbatim. -/
theorem c7_resolution_failure_mentions_input
    (r : AddressResolver) (s : String)
    (hlit : r.is_ethereum_address s = false)
    (hens : truthy (r.ens_step s) = false)
    (hsid : truthy (r.resolve_domain_to_address s) = false) :
    r.resolve_address s =
        .error (.valueError ("Could not resolve address or domain: " ++ s)) ∧
      ∃ pre post,
        "Could not resolve address or domain: " ++ s = pre ++ s ++ post := by
  refine ⟨?_, "Could not resolve address or domain: ", "", by simp⟩
  rw [AddressResolver.resolve_address_of_not_literal _ _ hlit,
    AddressResolver.domain_resolution_of_no_ens _ _ hens,
    if_neg (by simp [hsid])]

/-- Witness for C7: an unresolvable identifier with faulting backends. -/
theorem c7_witness :
    (AddressResolver.mk w_reject 1 ens_err http_err).resolve_address
        "not-a-real-domain" =
      .error (.valueError
        ("Could not resolve address or domain: " ++ "not-a-real-domain")) :=
  (c7_resolution_failure_mentions_input
    (AddressResolver.mk w_reject 1 ens_err http_err) "not-a-real-domain"
    rfl rfl rfl).1

/-- Claim C8: `get_domain_for_address` canonicalizes the input first and,
when the validator rejects it, returns `none` without consulting either
backend (the outcome is the same for every backend behavior); when the
address is valid but there is no verified primary name and no successful
secondary name, it returns `none` as a normal (non-error) value. -/
theorem c8_reverse_failfast_and_normal_absence
    (w : Web3Model) (cid : Int) (e e2 : ENSModel) (h h2 : Requests)
    (addr caddr : String) :
    (w.to_checksum_address addr = .error () →
      (AddressResolver.mk w cid e h).get_domain_for_address addr = none ∧
        (AddressResolver.mk w cid e h).get_domain_for_address addr =
          (AddressResolver.mk w cid e2 h2).get_domain_for_address addr) ∧
    (w.to_checksum_address addr = .ok caddr →
      truthy ((AddressResolver.mk w cid e h).get_ens_name caddr) = false →
      (AddressResolver.mk w cid e h).space_id_name_lookup caddr = none →
      (AddressResolver.mk w cid e h).get_domain_for_address addr = none) := by
  constructor
  · intro herr
    have g1 : (AddressResolver.mk w cid e h).get_domain_for_address addr =
        none := by
      simp [AddressResolver.get_domain_for_address, herr]
    have g2 : (AddressResolver.mk w cid e2 h2).get_domain_for_address addr =
        none := by
      simp [AddressResolver.get_domain_for_address, herr]
    exact ⟨g1, g1.trans g2.symm⟩
  · intro hok hname hsid
    simp [AddressResolver.get_domain_for_address, hok, hname, hsid]

/-- Witness for C8, applying the theorem on both sides: a rejected input
with arbitrary backends, and an accepted input with quiet backends. -/
theorem c8_witness :
    ((AddressResolver.mk w_reject 7 ens_err http_err).get_domain_for_address
        "0xzz" = none) ∧
      ((AddressResolver.mk w_ok 7 ens_quiet http_quiet).get_domain_for_address
        "0xdddddddddddddddddddddddddddddddddddddddd" = none) :=
  ⟨((c8_reverse_failfast_and_normal_absence w_reject 7 ens_err ens_quiet
      http_err http_quiet "0xzz" "").1 rfl).1,
    (c8_reverse_failfast_and_normal_absence w_ok 7 ens_quiet ens_quiet
      http_quiet http_quiet "0xdddddddddddddddddddddddddddddddddddddddd"
      "0xdddddddddddddddddddddddddddddddddddddddd").2 rfl rfl rfl⟩

/-- Claim C9 (implicit behavior): a name returned by the secondary backend's
reverse lookup is accepted without forward verification.  Concretely: the
secondary reverse endpoint reports success with the non-empty name
`"spoof.ip"`, the forward resolution of `"spoof.ip"` is a different address,
and `get_domain_for_address` still returns `"spoof.ip"`. -/
theorem c9_secondary_reverse_name_unverified :
    ((AddressResolver.mk w_hex 1514 ens_quiet http_spoof).http.getName 1514
        "0xdddddddddddddddddddddddddddddddddddddddd" =
      .ok ⟨200, .ok ⟨some 0, none, some "spoof.ip"⟩⟩) ∧
    ("spoof.ip" ≠ "") ∧
    ((AddressResolver.mk w_hex 1514 ens_quiet http_spoof).resolve_address
        "spoof.ip" = .ok "0xbbbbbbbbbbbbbbbbbbbbbbbbbbbbbbbbbbbbbbbb") ∧
    ("0xbbbbbbbbbbbbbbbbbbbbbbbbbbbbbbbbbbbbbbbb" ≠
      "0xdddddddddddddddddddddddddddddddddddddddd") ∧
    ((AddressResolver.mk w_hex 1514 ens_quiet
        http_spoof).get_domain_for_address
        "0xdddddddddddddddddddddddddddddddddddddddd" = some "spoof.ip") :=
  ⟨rfl, by decide, rfl, by decide, rfl⟩

/-- Claim C10: for every input identifier, every shared collaborator state
and every pair of configured chain ids, `resolve_address` produces the same
result — unconditionally, since the secondary forward-lookup request carries
no chain id; the chain id influences only reverse resolution, and only
through the secondary `getName` query: whenever that endpoint treats the two
chain ids alike, reverse resolution agrees as well. -/
theorem c10_chain_id_forward_equivalence
    (w : Web3Model) (cid cid2 : Int) (e : ENSModel) (h : Requests)
    (s t : String) :
    (AddressResolver.mk w cid e h).resolve_address s =
        (AddressResolver.mk w cid2 e h).resolve_address s ∧
      ((∀ a, h.getName cid a = h.getName cid2 a) →
        (AddressResolver.mk w cid e h).get_domain_for_address t =
          (AddressResolver.mk w cid2 e h).get_domain_for_address t) := by
  refine ⟨rfl, fun hg => ?_⟩
  simp only [AddressResolver.get_domain_for_address,
    AddressResolver.space_id_name_lookup, AddressResolver.get_ens_name, hg]

/-- Witness for C10 at concrete chain ids 1 and 2 with a secondary backend
that answers 404 regardless of the chain id. -/
theorem c10_witness :
    (AddressResolver.mk w_ok 1 ens_quiet http_quiet).resolve_address "x" =
        (AddressResolver.mk w_ok 2 ens_quiet http_quiet).resolve_address "x" ∧
      (AddressResolver.mk w_ok 1 ens_quiet
          http_quiet).get_domain_for_address
          "0xdddddddddddddddddddddddddddddddddddddddd" =
        (AddressResolver.mk w_ok 2 ens_quiet
          http_quiet).get_domain_for_address
          "0xdddddddddddddddddddddddddddddddddddddddd" :=
  ⟨(c10_chain_id_forward_equivalence w_ok 1 2 ens_quiet http_quiet "x"
      "0xdddddddddddddddddddddddddddddddddddddddd").1,
    (c10_chain_id_forward_equivalence w_ok 1 2 ens_quiet http_quiet "x"
      "0xdddddddddddddddddddddddddddddddddddddddd").2 (fun _ => rfl)⟩
